import Mathlib

/-!
Verification of the scenariod spec-driven-development governance engine.

The definitions below are a shallow embedding of the protocol implemented by the
repository (spec packets, controlled vocabulary, the three verification gates,
the task lifecycle with graduated escalation, the feature tracker with stall
detection and graceful degradation, the packet parse path with its forgiving
fallback) together with the shipped health-check HTTP endpoint.  Each
definition is translated from the corresponding section of the source
(`src/unnamed/part_001` for the governance engine, `src/unnamed/part_000` and
`src/src/app.js` for the endpoint).  Theorems about the claims follow the
definitions.
-/

namespace Scenariod

/-! ## Controlled vocabulary (source: part_001 Section 3) -/

/-- The RFC-2119 modal keywords of the controlled vocabulary, closed under the
opposite-pairing used by the double-entry rule (MUST ↔ MUST NOT,
SHOULD ↔ SHOULD NOT, MAY ↔ MAY NOT). -/
inductive ModalKeyword
  | must
  | mustNot
  | should
  | shouldNot
  | may
  | mayNot
deriving DecidableEq, Repr

/-- Opposite keyword of the same pair (part_001 line 178). -/
def ModalKeyword.opposite : ModalKeyword → ModalKeyword
  | .must => .mustNot
  | .mustNot => .must
  | .should => .shouldNot
  | .shouldNot => .should
  | .may => .mayNot
  | .mayNot => .may

/-- The four keywords a `positive` field may use (part_001 line 177:
"exactly one of: MUST, MUST NOT, SHOULD, MAY"). -/
def ModalKeyword.positiveForm : ModalKeyword → Bool
  | .must => true
  | .mustNot => true
  | .should => true
  | .may => true
  | _ => false

/-- A token of assertion text.  The protocol's lint rules are stated over the
occurrences of modal keywords, banned vague terms ("works", "correct",
"proper", "appropriate", ...) and specific observables (an endpoint + status, a
file + content, a return shape, an error code, ...) inside the field text, so
fields are embedded as token lists. -/
inductive Token
  | modal (k : ModalKeyword)
  | banned (term : String)
  | observable (description : String)
  | word (w : String)
deriving DecidableEq, Repr

/-- The modal keywords occurring in a field. -/
def modalKeywords (field : List Token) : List ModalKeyword :=
  field.filterMap fun t =>
    match t with
    | .modal k => some k
    | _ => none

/-- Whether a banned vague term occurs in the text. -/
def hasBannedTerm (field : List Token) : Bool :=
  field.any fun t =>
    match t with
    | .banned _ => true
    | _ => false

/-- Whether a specific observable is stated in the text. -/
def hasObservable (field : List Token) : Bool :=
  field.any fun t =>
    match t with
    | .observable _ => true
    | _ => false

/-! ## Spec packet data model (source: part_001 Section 1) -/

/-- One assertion of a spec packet: `id`, `positive`, `negative`. -/
structure Assertion where
  id : String
  positive : List Token
  negative : List Token
deriving DecidableEq, Repr

/-- A parsed spec packet: `version`, `intent`, `assertions`, `constraints`,
`file_scope` (part_001 Section 1 field reference). -/
structure SpecPacket where
  version : Nat
  intent : String
  assertions : List Assertion
  constraints : List (List Token)
  fileScope : List String
deriving DecidableEq, Repr

/-! ## Gate 1: Spec Lint (source: part_001 Section 14, "Gate 1: Spec Lint";
usage rules part_001 lines 175-181; quality gate part_001 Section 4) -/

/-- Controlled-vocabulary check for one assertion (part_001 lines 177-178):
the `positive` field contains exactly one of MUST / MUST NOT / SHOULD / MAY and
the `negative` field uses exactly the opposite keyword of the same pair. -/
def assertionVocabOK (a : Assertion) : Bool :=
  match modalKeywords a.positive, modalKeywords a.negative with
  | [kp], [kn] => kp.positiveForm && (kn == kp.opposite)
  | _, _ => false

/-- Quality-gate check for one assertion (part_001 Section 4): a banned vague
term may not appear unless a specific observable is stated. -/
def assertionQualityOK (a : Assertion) : Bool :=
  !(hasBannedTerm (a.positive ++ a.negative) &&
    !hasObservable (a.positive ++ a.negative))

/-- A violation reported by a gate check: the check that failed and its
fail message (part_001 Section 14 check tables). -/
structure Violation where
  check : String
  message : String
deriving DecidableEq, Repr

/-- The Spec Lint gate's violations on a parsed packet, mirroring the Gate 1
check table (part_001 lines 953-965).  The delimiter-presence and YAML-parse
checks concern the raw submission and are embedded in the parse path below
(`strictParse`); on a structurally parsed `SpecPacket` the required-field and
assertion-structure checks hold by construction, leaving the
controlled-vocabulary check, the quality gate and the 7x7 constraint. -/
def specLintViolations (p : SpecPacket) : List Violation :=
  (p.assertions.filterMap fun a =>
    if assertionVocabOK a then none
    else some ⟨"controlled-vocabulary",
      "Assertion " ++ a.id ++ " missing controlled vocabulary keyword"⟩)
  ++ (p.assertions.filterMap fun a =>
    if assertionQualityOK a then none
    else some ⟨"quality-gate",
      "Assertion " ++ a.id ++ " uses vague term without observable"⟩)
  ++ (if p.assertions.length ≤ 7 then []
    else [⟨"7x7", "Task exceeds 7 assertions"⟩])

/-- The Spec Lint gate passes iff no check reports a violation. -/
def specLintGate (p : SpecPacket) : Bool :=
  (specLintViolations p).isEmpty

/-! ## Evidence records (source: part_001 Section 11) -/

/-- PASS / FAIL result of one evidence line. -/
inductive EvidenceResult
  | pass
  | fail
deriving DecidableEq, Repr

/-- An evidence record for one assertion: result, file:line locator, note;
FAIL records additionally carry expected and actual (part_001 Section 11). -/
structure EvidenceRecord where
  result : EvidenceResult
  location : Option String
  note : String
  expected : Option String
  actual : Option String
deriving DecidableEq, Repr

/-- Evidence is a mapping from assertion id to at most one record (evidence for
an assertion id is idempotently overwritten, never appended as a duplicate). -/
def Evidence : Type := String → Option EvidenceRecord

/-! ## Gate 2: Assertion Audit (source: part_001 Section 14, "Gate 2") -/

/-- The Assertion Audit gate's violations: every assertion id from the spec has
a result, each result carries a file:line locator, and FAIL results carry
expected and actual (part_001 lines 967-976; the PASS/FAIL status itself is
present by construction of `EvidenceRecord`). -/
def assertionAuditViolations (p : SpecPacket) (ev : Evidence) : List Violation :=
  p.assertions.filterMap fun a =>
    match ev a.id with
    | none => some ⟨"completeness", "Missing evidence for assertion: " ++ a.id⟩
    | some r =>
      if r.location.isNone then
        some ⟨"evidence-format", "Assertion " ++ a.id ++ " missing file:line evidence"⟩
      else
        match r.result with
        | .pass => none
        | .fail =>
          if r.expected.isSome && r.actual.isSome then none
          else some ⟨"fail-detail", "Assertion " ++ a.id ++ " FAIL missing expected/actual"⟩

/-- The Assertion Audit gate passes iff no check reports a violation. -/
def assertionAuditGate (p : SpecPacket) (ev : Evidence) : Bool :=
  (assertionAuditViolations p ev).isEmpty

/-! ## Gate 3: File Scope Audit (source: part_001 Section 14, "Gate 3") -/

/-- Blocking violations: every modified file must appear in `file_scope`. -/
def fileScopeViolations (p : SpecPacket) (modifiedFiles : List String) : List Violation :=
  modifiedFiles.filterMap fun f =>
    if p.fileScope.contains f then none
    else some ⟨"out-of-scope", "File modified outside scope: " ++ f⟩

/-- Non-blocking warnings: a file in scope that was not touched is a warning
only (part_001 lines 984-987). -/
def fileScopeWarnings (p : SpecPacket) (modifiedFiles : List String) : List Violation :=
  p.fileScope.filterMap fun f =>
    if modifiedFiles.contains f then none
    else some ⟨"completeness-warning", "Warning: file in scope not modified: " ++ f⟩

/-- The File Scope gate passes iff there is no blocking violation. -/
def fileScopeGate (p : SpecPacket) (modifiedFiles : List String) : Bool :=
  (fileScopeViolations p modifiedFiles).isEmpty

/-! ## NOT DONE rule and the EXECUTING → VERIFIED transition
(source: part_001 Section 11 "NOT DONE Rule", Section 15 transition rule 4) -/

/-- Every assertion id from the packet has an evidence record and that record's
result is PASS (part_001 lines 709-717). -/
def allAssertionsPass (p : SpecPacket) (ev : Evidence) : Bool :=
  p.assertions.all fun a =>
    match ev a.id with
    | some r => r.result == .pass
    | none => false

/-- Task lifecycle states of the expanded 6-state model (part_001 Section 15;
GRADUATED is feature-level, so it is not a task state), plus BLOCKED. -/
inductive TaskState
  | draft
  | lintPass
  | ratified
  | executing
  | verified
  | blocked
deriving DecidableEq, Repr

/-- EXECUTING → VERIFIED verdict (part_001 Section 15 transition rule 4):
Section 14 Gates 1-3 validate the packet, the evidence and the touched files,
and every assertion reports PASS. -/
def verificationVerdict (p : SpecPacket) (ev : Evidence) (modifiedFiles : List String) : Bool :=
  specLintGate p && assertionAuditGate p ev &&
    fileScopeGate p modifiedFiles && allAssertionsPass p ev

/-- The state an EXECUTING task moves to when its completion is checked:
VERIFIED on a positive verdict, otherwise it remains EXECUTING. -/
def executingTransition (p : SpecPacket) (ev : Evidence) (modifiedFiles : List String) : TaskState :=
  if verificationVerdict p ev modifiedFiles then .verified else .executing

/-! ## Gate pipeline with one retry (source: part_001 Section 14) -/

/-- Names of the three Layer-1 gates, in execution order. -/
inductive GateName
  | specLint
  | assertionAudit
  | fileScopeAudit
deriving DecidableEq, Repr

/-- A specific finding returned to the executing role on gate failure:
the exact gate, check and fail message (part_001 line 993). -/
structure Finding where
  gate : GateName
  check : String
  message : String
deriving DecidableEq, Repr

/-- One submission of a completed task to the gate pipeline: the packet in the
task description, the reported evidence and the files actually modified. -/
structure Submission where
  packet : SpecPacket
  evidence : Evidence
  modifiedFiles : List String

/-- The violations one gate reports on a submission. -/
def gateViolations (g : GateName) (s : Submission) : List Violation :=
  match g with
  | .specLint => specLintViolations s.packet
  | .assertionAudit => assertionAuditViolations s.packet s.evidence
  | .fileScopeAudit => fileScopeViolations s.packet s.modifiedFiles

/-- The finding one gate produces: its first violation, if any, tagged with the
gate's name. -/
def gateFinding (g : GateName) (s : Submission) : Option Finding :=
  match gateViolations g s with
  | [] => none
  | v :: _ => some ⟨g, v.check, v.message⟩

/-- Run the three gates strictly in order; a failing gate skips subsequent
gates for that cycle and its finding is returned (part_001 lines 936-951). -/
def runGates (s : Submission) : Option Finding :=
  match gateFinding .specLint s with
  | some f => some f
  | none =>
    match gateFinding .assertionAudit s with
    | some f => some f
    | none => gateFinding .fileScopeAudit s

/-- Outcome of the Layer-1 gate phase for one task completion. -/
inductive PipelineOutcome
  | proceedToReview
  | blocked (f : Finding)
deriving DecidableEq, Repr

/-- Gate phase with the uniform failure handling of part_001 lines 989-1005:
on a gate failure the implementer receives the specific finding and gets
exactly one retry; after the retry all three gates run again from the
beginning on the resubmission; if the retry also fails the task is BLOCKED. -/
def gatePhase (first retry : Submission) : PipelineOutcome :=
  match runGates first with
  | none => .proceedToReview
  | some _ =>
    match runGates retry with
    | none => .proceedToReview
    | some f2 => .blocked f2

/-! ## Graduated escalation and the per-task circuit breaker
(source: part_001 Section 15 "Graduated Escalation Protocol" and
Section 14 "Failure Handling") -/

/-- Escalation severity levels (part_001 lines 1059-1073). -/
inductive EscalationLevel
  | green
  | yellow
  | orange
  | red
deriving DecidableEq, Repr

/-- Events observed while a task is being verified: a blocking gate failure on
a submission, a reviewer NEEDS_CHANGES verdict (one worker-reviewer cycle), or
a reviewer approval. -/
inductive ExecEvent
  | gateFail
  | reviewNeedsChanges
  | reviewApproved
deriving DecidableEq, Repr

/-- Escalation-relevant task state: an executing task carries whether its
single gate retry is already spent and how many worker-reviewer cycles have
been consumed; VERIFIED and BLOCKED are terminal. -/
inductive ExecState
  | executing (gateRetryUsed : Bool) (reviewCycles : Nat)
  | verified
  | blocked
deriving DecidableEq, Repr

/-- One escalation step (part_001 Sections 14 and 15): a gate failure after the
single retry is spent marks the task BLOCKED (Section 14 step 4); a
NEEDS_CHANGES review consumes one of the 3 worker-reviewer cycles and the
third one trips the circuit breaker (Section 15 Layer 1); each new
worker-reviewer cycle enters the gate phase with a fresh single retry
(Section 14: "Gate failures consume 1 retry before entering the reviewer
cycle"); Red is terminal per task. -/
def escalationStep : ExecState → ExecEvent → ExecState
  | .executing true _, .gateFail => .blocked
  | .executing false c, .gateFail => .executing true c
  | .executing _ c, .reviewNeedsChanges =>
    if 3 ≤ c + 1 then .blocked else .executing false (c + 1)
  | .executing _ _, .reviewApproved => .verified
  | .verified, _ => .verified
  | .blocked, _ => .blocked

/-- Run a sequence of escalation events from a state. -/
def escalationRun (s : ExecState) : List ExecEvent → ExecState
  | [] => s
  | e :: es => escalationRun (escalationStep s e) es

/-- A task enters verification with its retry unspent and zero cycles. -/
def initialExec : ExecState := .executing false 0

/-! ## Feature tracker (source: part_001 Sections 12 and 13) -/

/-- Feature lifecycle phases (part_001 Section 12 JSON schema). -/
inductive FeaturePhase
  | draft
  | active
  | done
deriving DecidableEq, Repr

/-- A tracker entry: id, title, phase, spec_overview path, task ids,
verified flag (part_001 lines 750-768).  Task ids are embedded by the numeric
part of their globally unique, monotonically assigned T-NNN identifiers. -/
structure Feature where
  id : String
  title : String
  phase : FeaturePhase
  specOverview : String
  tasks : List Nat
  verified : Bool
deriving DecidableEq, Repr

/-- Completion data available for each task id: its packet and the evidence it
reported, if any report exists. -/
def TaskEnv : Type := Nat → Option (SpecPacket × Evidence)

/-- Whether one task of a feature is complete per the Automated DONE Transition
(part_001 lines 868-871): no evidence report, a FAIL assertion, or a missing
assertion id each make the feature NOT DONE. -/
def taskComplete (env : TaskEnv) (tid : Nat) : Bool :=
  match env tid with
  | some (p, ev) => allAssertionsPass p ev
  | none => false

/-- Tracker recomputation for one feature, run after every task completion
(part_001 lines 863-878): if all tasks have all assertions PASS, set
`verified` to true and `phase` to DONE; otherwise nothing is set. -/
def recomputeFeature (env : TaskEnv) (f : Feature) : Feature :=
  if f.tasks.all (taskComplete env) then
    { f with verified := true, phase := .done }
  else f

/-! ## Feature stall detection and re-specification
(source: part_001 Section 13 "Feature Stall Detection" and Section 15
"Spec-Level Circuit Breaker Detail") -/

/-- Task states as seen by the stall detector. -/
def TaskStates : Type := Nat → TaskState

/-- Number of BLOCKED tasks belonging to a feature. -/
def blockedCount (states : TaskStates) (f : Feature) : Nat :=
  (f.tasks.filter fun tid => states tid == .blocked).length

/-- A feature is stalled when 3 or more of its tasks reach BLOCKED
(part_001 line 882). -/
def featureStalled (states : TaskStates) (f : Feature) : Bool :=
  3 ≤ blockedCount states f

/-- The two sequenced responses to a stall (part_001 lines 1100-1105): halt
dispatch of the feature's remaining tasks and flag NEEDS_RESPEC. -/
structure StallResponse where
  haltDispatch : Bool
  needsRespec : Bool
deriving DecidableEq, Repr

/-- The stall-detector output for a feature. -/
def stallCheck (states : TaskStates) (f : Feature) : StallResponse :=
  if featureStalled states f then ⟨true, true⟩ else ⟨false, false⟩

/-- Dispatch of further tasks of a feature is allowed only while the feature is
not stalled. -/
def dispatchAllowed (states : TaskStates) (f : Feature) : Bool :=
  !(featureStalled states f)

/-- Fresh task ids drawn from the global monotone counter: task ids are
globally unique, monotonically increasing and never reset
(part_001 Section 9 "ID Schemes"). -/
def allocTaskIds (next : Nat) : Nat → List Nat
  | 0 => []
  | k + 1 => next :: allocTaskIds (next + 1) k

/-- Re-specification after a stall (part_001 lines 1104-1105 and 887-891):
new tasks replace the BLOCKED ones and the feature remains ACTIVE with the
updated task array; its id is kept. -/
def respecFeature (states : TaskStates) (f : Feature) (replacements : List Nat) : Feature :=
  { f with
      phase := .active,
      tasks := (f.tasks.filter fun tid => !(states tid == .blocked)) ++ replacements }

/-! ## Packet parse path with forgiving fallback
(source: part_001 Section 1 "Delimiters" and Section 8 "Forgiving Parser
Fallback") -/

/-- A line of the raw submission between the delimiters: either a recognizable
key/value pair or unparsable text. -/
inductive RawLine
  | kv (key value : String)
  | junk (text : String)
deriving DecidableEq, Repr

/-- A raw textual packet submission: whether both fixed delimiter markers
("# --- SPEC ---" / "# --- END SPEC ---") are present, and the content framed
by them. -/
structure RawSubmission where
  framed : Bool
  body : List RawLine
deriving DecidableEq, Repr

/-- The five required top-level fields of a Slice-1 packet
(part_001 Section 1 field reference). -/
def requiredFields : List String :=
  ["version", "intent", "assertions", "constraints", "file_scope"]

/-- The raw field map a parser recovered. -/
structure RawPacket where
  fields : List (String × String)
deriving DecidableEq, Repr

/-- Every required field is present in the recovered map. -/
def RawPacket.complete (p : RawPacket) : Bool :=
  requiredFields.all fun k => (p.fields.map Prod.fst).contains k

/-- Structured parse errors: the offending part is always named
(part_001 Section 14 Gate 1 fail messages; spec never degrades silently). -/
inductive ParseError
  | missingDelimiters
  | malformedBody (offending : String)
  | missingField (field : String)
deriving DecidableEq, Repr

/-- The key/value pairs recognizable in a body. -/
def recognizedFields (body : List RawLine) : List (String × String) :=
  body.filterMap fun l =>
    match l with
    | .kv k v => some (k, v)
    | .junk _ => none

/-- Strict structural parse: the delimiters must be present, the whole body
must parse (any unparsable line fails immediately, naming it), and every
required field must be present (the missing one is named). -/
def strictParse (s : RawSubmission) : Except ParseError RawPacket :=
  if !s.framed then .error .missingDelimiters
  else
    match s.body.find? fun l =>
      match l with
      | .junk _ => true
      | _ => false with
    | some (.junk t) => .error (.malformedBody t)
    | some (.kv _ _) => .error (.malformedBody "")
    | none =>
      match requiredFields.find? fun k =>
        !((recognizedFields s.body).map Prod.fst).contains k with
      | some k => .error (.missingField k)
      | none => .ok ⟨recognizedFields s.body⟩

/-- Forgiving parser: extracts the raw content between the fixed delimiters
(which is why the delimiters exist, part_001 lines 55 and 509) and best-effort
maps the recognizable key/value pairs, ignoring unparsable lines; it still
fails, naming the field, when a required field cannot be recovered. -/
def forgivingParse (s : RawSubmission) : Except ParseError RawPacket :=
  if !s.framed then .error .missingDelimiters
  else
    match requiredFields.find? fun k =>
      !((recognizedFields s.body).map Prod.fst).contains k with
    | some k => .error (.missingField k)
    | none => .ok ⟨recognizedFields s.body⟩

/-- Outcome of the parse path: a recovered packet, or the task is marked
BLOCKED with a specific diagnostic. -/
inductive ParseOutcome
  | accepted (p : RawPacket)
  | blockedWithDiagnostic (e : ParseError)
deriving DecidableEq, Repr

/-- The parse path of part_001 lines 501-509: strict parse; on failure exactly
one resubmission with the parser's error attached (`resubmit` is the
authoring role's corrected packet produced from that error); if the
resubmission also fails strict parsing, the forgiving parser runs on it; if
that still fails, the task is BLOCKED with the specific diagnostic. -/
def parsePath (first : RawSubmission) (resubmit : ParseError → RawSubmission) : ParseOutcome :=
  match strictParse first with
  | .ok p => .accepted p
  | .error e1 =>
    match strictParse (resubmit e1) with
    | .ok p => .accepted p
    | .error _ =>
      match forgivingParse (resubmit e1) with
      | .ok p => .accepted p
      | .error e3 => .blockedWithDiagnostic e3

/-! ## Tier classifier (source: part_001 Section 6 "Classification Decision
Table") -/

/-- The four spec tiers, in increasing order of required rigor. -/
inductive Tier
  | trivialT
  | simpleT
  | moderateT
  | complexT
deriving DecidableEq, Repr

/-- Severity rank of a tier (TRIVIAL < SIMPLE < MODERATE < COMPLEX). -/
def Tier.rank : Tier → Nat
  | .trivialT => 0
  | .simpleT => 1
  | .moderateT => 2
  | .complexT => 3

/-- The larger of two tiers ("classify UP on conflict", part_001 line 322). -/
def Tier.maxTier (a b : Tier) : Tier :=
  if a.rank ≤ b.rank then b else a

/-- Severity scale shared by the risk-of-drift, novelty and coupling columns of
the decision table: `base` is risk None / novelty Zero / coupling Isolated,
then Low/Low/Minimal, Medium/Medium/Some-cross-file,
High/High/Multi-component. -/
inductive SignalLevel
  | base
  | low
  | medium
  | high
deriving DecidableEq, Repr

/-- Severity rank of a signal level. -/
def SignalLevel.rank : SignalLevel → Nat
  | .base => 0
  | .low => 1
  | .medium => 2
  | .high => 3

/-- Tier band of a qualitative signal per its column of the decision table. -/
def SignalLevel.band : SignalLevel → Tier
  | .base => .trivialT
  | .low => .simpleT
  | .medium => .moderateT
  | .high => .complexT

/-- Tier band of the files-touched signal (decision table row "Files touched":
1 / 1-2 / 2-5 / 5+, each value classified at the lowest band whose range
reaches it; the classify-up rule acts across signals via the maximum). -/
def filesBand (n : Nat) : Tier :=
  if n ≤ 1 then .trivialT
  else if n ≤ 2 then .simpleT
  else if n ≤ 5 then .moderateT
  else .complexT

/-- The signal vector the classifier consumes (spec.md Section 6:
files touched, novelty, coupling, risk). -/
structure TaskSignals where
  filesTouched : Nat
  riskOfDrift : SignalLevel
  novelty : SignalLevel
  coupling : SignalLevel
deriving DecidableEq, Repr

/-- The tier band of each signal. -/
def signalBands (s : TaskSignals) : List Tier :=
  [filesBand s.filesTouched, s.riskOfDrift.band, s.novelty.band, s.coupling.band]

/-- The task's tier: the maximum band across all signals. -/
def classifyTier (s : TaskSignals) : Tier :=
  (signalBands s).foldl Tier.maxTier .trivialT

/-- TRIVIAL tasks bypass packet authoring entirely; spec authoring is required
from SIMPLE upward (part_001 Section 7 routing). -/
def specAuthoringRequired (s : TaskSignals) : Bool :=
  !(classifyTier s == .trivialT)

/-! ## Graceful degradation of the tracker store
(source: part_001 Section 13 "Graceful Degradation" and "Recovery
Procedures") -/

/-- The durable tracker store: the array of feature records. -/
structure TrackerStore where
  features : List Feature
deriving DecidableEq, Repr

/-- Orchestrator state: per-task lifecycle states keyed by task id, the durable
per-task evidence log, and the tracker store — `none` when the tracker file is
missing or fails to parse. -/
structure OrchestratorState where
  taskStates : List (Nat × TaskState)
  evidenceLog : List (Nat × String × EvidenceRecord)
  tracker : Option TrackerStore

/-- A completed task arriving at the orchestrator: its id, packet, reported
evidence and the files it modified. -/
structure CompletionInput where
  taskId : Nat
  packet : SpecPacket
  evidence : Evidence
  modifiedFiles : List String

/-- Update the recorded state of one task, leaving every other task alone. -/
def updateTaskState (tasks : List (Nat × TaskState)) (tid : Nat) (st : TaskState) :
    List (Nat × TaskState) :=
  tasks.map fun p => if p.1 = tid then (p.1, st) else p

/-- The evidence records a completion contributes to the durable log. -/
def completionRecords (c : CompletionInput) : List (Nat × String × EvidenceRecord) :=
  c.packet.assertions.filterMap fun a =>
    (c.evidence a.id).map fun r => (c.taskId, a.id, r)

/-- Feature-level recomputation over the whole store. -/
def recomputeStore (env : TaskEnv) (store : TrackerStore) : TrackerStore :=
  ⟨store.features.map (recomputeFeature env)⟩

/-- Post-task-completion step of the dispatch loop (part_001 lines 852-878 and
894-907): the per-task gate verdict and transition are computed from the
submission alone, the evidence is appended to the durable log, and only the
feature-level aggregation consults the tracker — when the tracker is
unavailable it stays unavailable and aggregation pauses; no task or evidence
record is dropped. -/
def processCompletion (st : OrchestratorState) (c : CompletionInput) (env : TaskEnv) :
    OrchestratorState :=
  { taskStates :=
      updateTaskState st.taskStates c.taskId
        (executingTransition c.packet c.evidence c.modifiedFiles),
    evidenceLog := st.evidenceLog ++ completionRecords c,
    tracker :=
      match st.tracker with
      | some store => some (recomputeStore env store)
      | none => none }

/-! ## UTC calendar time and ISO-8601 strings

The health route (`src/unnamed/part_000`) responds with
`new Date().toISOString()` and its test suite (`src/tests/health.test.js`)
checks the timestamp with `new Date(ts).toISOString() === ts`.  The following
definitions model the ECMAScript Date semantics these builtins provide for
post-1970 UTC instants: an instant is a count of milliseconds since the epoch,
`toISOString` renders its proleptic-Gregorian UTC decomposition as
YYYY-MM-DDTHH:mm:ss.sssZ, and parsing an ISO string recombines the calendar
fields into milliseconds. -/

/-- Gregorian leap-year rule. -/
def isLeapYear (y : Nat) : Bool :=
  (y % 4 == 0 && y % 100 != 0) || y % 400 == 0

/-- Days in a year. -/
def daysInYear (y : Nat) : Nat :=
  if isLeapYear y then 366 else 365

/-- Month lengths, January to December. -/
def monthLengths (leap : Bool) : List Nat :=
  [31, if leap then 29 else 28, 31, 30, 31, 30, 31, 31, 30, 31, 30, 31]

/-- Length of month `m` (1-12). -/
def monthLength (leap : Bool) (m : Nat) : Nat :=
  (monthLengths leap).getD (m - 1) 0

/-- Total days in the `n` consecutive years starting at year `y`. -/
def daysInRange (y : Nat) : Nat → Nat
  | 0 => 0
  | n + 1 => daysInYear y + daysInRange (y + 1) n

/-- Days in the months of the year strictly before month `m` (1-12). -/
def daysUpToMonth (leap : Bool) (m : Nat) : Nat :=
  ((monthLengths leap).take (m - 1)).sum

/-- Peel whole years off a day count, starting at year `y`; the fuel bounds the
iteration and is always sufficient when it exceeds `d / 365`. -/
def splitYearAux : Nat → Nat → Nat → Nat × Nat
  | 0, y, d => (y, d)
  | fuel + 1, y, d =>
    if d < daysInYear y then (y, d)
    else splitYearAux fuel (y + 1) (d - daysInYear y)

/-- Split days-since-epoch into (year, day-of-year). -/
def splitYear (d : Nat) : Nat × Nat :=
  splitYearAux (d / 365 + 1) 1970 d

/-- Peel whole months off a day-of-year count. -/
def splitMonthAux : List Nat → Nat → Nat → Nat × Nat
  | [], m, d => (m, d)
  | len :: rest, m, d =>
    if d < len then (m, d) else splitMonthAux rest (m + 1) (d - len)

/-- Split a day-of-year into (month, zero-based day-of-month). -/
def splitMonth (leap : Bool) (dayOfYear : Nat) : Nat × Nat :=
  splitMonthAux (monthLengths leap) 1 dayOfYear

/-- A broken-down UTC instant. -/
structure UtcDateTime where
  year : Nat
  month : Nat
  day : Nat
  hour : Nat
  minute : Nat
  second : Nat
  millisecond : Nat
deriving DecidableEq, Repr

/-- UTC calendar decomposition of milliseconds since the epoch. -/
def msToUtc (m : Nat) : UtcDateTime :=
  let days := m / 86400000
  let msOfDay := m % 86400000
  let yd := splitYear days
  let md := splitMonth (isLeapYear yd.1) yd.2
  { year := yd.1, month := md.1, day := md.2 + 1,
    hour := msOfDay / 3600000, minute := msOfDay / 60000 % 60,
    second := msOfDay / 1000 % 60, millisecond := msOfDay % 1000 }

/-- Milliseconds since the epoch of a broken-down UTC instant (the MakeDay /
MakeDate recombination used by Date parsing). -/
def utcToMs (t : UtcDateTime) : Nat :=
  (daysInRange 1970 (t.year - 1970) + daysUpToMonth (isLeapYear t.year) t.month
      + (t.day - 1)) * 86400000
    + t.hour * 3600000 + t.minute * 60000 + t.second * 1000 + t.millisecond

/-- The decimal digit character for `n % 10`. -/
def digitChar (n : Nat) : Char :=
  Char.ofNat (48 + n % 10)

/-- Two-digit zero-padded decimal rendering. -/
def pad2 (n : Nat) : List Char :=
  [digitChar (n / 10), digitChar n]

/-- Three-digit zero-padded decimal rendering. -/
def pad3 (n : Nat) : List Char :=
  [digitChar (n / 100), digitChar (n / 10), digitChar n]

/-- Four-digit zero-padded decimal rendering. -/
def pad4 (n : Nat) : List Char :=
  [digitChar (n / 1000), digitChar (n / 100), digitChar (n / 10), digitChar n]

/-- The characters of the ISO-8601 rendering YYYY-MM-DDTHH:mm:ss.sssZ. -/
def renderIso (t : UtcDateTime) : List Char :=
  pad4 t.year ++ '-' :: pad2 t.month ++ '-' :: pad2 t.day
    ++ 'T' :: pad2 t.hour ++ ':' :: pad2 t.minute ++ ':' :: pad2 t.second
    ++ '.' :: pad3 t.millisecond ++ ['Z']

/-- `Date.prototype.toISOString` on a post-epoch instant. -/
def toISOString (m : Nat) : String :=
  String.mk (renderIso (msToUtc m))

/-- Value of one decimal digit character. -/
def digitVal (c : Char) : Option Nat :=
  if 48 ≤ c.toNat ∧ c.toNat ≤ 57 then some (c.toNat - 48) else none

/-- Parse two decimal digit characters. -/
def digits2 (a b : Char) : Option Nat :=
  match digitVal a, digitVal b with
  | some x, some y => some (10 * x + y)
  | _, _ => none

/-- Parse three decimal digit characters. -/
def digits3 (a b c : Char) : Option Nat :=
  match digitVal a, digitVal b, digitVal c with
  | some x, some y, some z => some (100 * x + 10 * y + z)
  | _, _, _ => none

/-- Parse four decimal digit characters. -/
def digits4 (a b c d : Char) : Option Nat :=
  match digitVal a, digitVal b, digitVal c, digitVal d with
  | some x, some y, some z, some w => some (1000 * x + 100 * y + 10 * z + w)
  | _, _, _, _ => none

/-- Parse the fixed-width ISO-8601 date-time string format
YYYY-MM-DDTHH:mm:ss.sssZ into its calendar fields. -/
def parseIso (cs : List Char) : Option UtcDateTime :=
  match cs with
  | [y1, y2, y3, y4, c1, m1, m2, c2, d1, d2, c3, h1, h2, c4,
     mi1, mi2, c5, s1, s2, c6, ms1, ms2, ms3, c7] =>
    if c1 = '-' ∧ c2 = '-' ∧ c3 = 'T' ∧ c4 = ':' ∧ c5 = ':' ∧ c6 = '.' ∧ c7 = 'Z' then
      match digits4 y1 y2 y3 y4, digits2 m1 m2, digits2 d1 d2, digits2 h1 h2,
          digits2 mi1 mi2, digits2 s1 s2, digits3 ms1 ms2 ms3 with
      | some y, some mo, some d, some h, some mi, some s, some ms =>
        some ⟨y, mo, d, h, mi, s, ms⟩
      | _, _, _, _, _, _, _ => none
    else none
  | _ => none

/-- Range validity of the parsed calendar fields (out-of-range fields make the
date invalid); the post-1970 restriction matches the `Nat` instant model. -/
def validUtc (t : UtcDateTime) : Bool :=
  decide (1970 ≤ t.year) && decide (1 ≤ t.month) && decide (t.month ≤ 12)
    && decide (1 ≤ t.day) && decide (t.day ≤ monthLength (isLeapYear t.year) t.month)
    && decide (t.hour ≤ 23) && decide (t.minute ≤ 59) && decide (t.second ≤ 59)
    && decide (t.millisecond ≤ 999)

/-- `new Date(s).getTime()` on an ISO-8601 formatted string: parse the calendar
fields, reject invalid dates, recombine into milliseconds. -/
def dateFromString (s : String) : Option Nat :=
  match parseIso s.data with
  | some t => if validUtc t then some (utcToMs t) else none
  | none => none

/-! ## The shipped health endpoint (source: src/unnamed/part_000 lines 7-12 and
src/src/app.js) -/

/-- An HTTP response whose JSON body is an object of string fields. -/
structure HttpResponse where
  status : Nat
  contentType : String
  body : List (String × String)
deriving DecidableEq, Repr

/-- The handler of `router.get('/health', ...)`: status 200 with the JSON body
holding `status: 'ok'` and `timestamp: new Date().toISOString()`, taking the
current instant as input. -/
def healthHandler (nowMs : Nat) : HttpResponse :=
  { status := 200,
    contentType := "application/json",
    body := [("status", "ok"), ("timestamp", toISOString nowMs)] }

/-- The app of `src/app.js` with the health router mounted: request dispatch by
method and path. -/
def appHandle (method path : String) (nowMs : Nat) : Option HttpResponse :=
  if method = "GET" ∧ path = "/health" then some (healthHandler nowMs) else none

/-! ## Concrete instances used by witnesses and counterexamples -/

/-- A well-formed assertion: one positive-form modal keyword, the opposite
keyword in the negative field, and a specific observable in each field. -/
def exampleAssertion : Assertion :=
  { id := "A1",
    positive := [.word "GET /health", .modal .must, .observable "return HTTP 200"],
    negative := [.word "GET /health", .modal .mustNot, .observable "return a non-200 status"] }

/-- A well-formed one-assertion packet whose file scope is a single file. -/
def examplePacket : SpecPacket :=
  { version := 1,
    intent := "Implement GET /health endpoint",
    assertions := [exampleAssertion],
    constraints := [[.modal .mustNot, .word "remove existing routes"]],
    fileScope := ["a.txt"] }

/-- A PASS evidence record with a file:line locator. -/
def examplePassRecord : EvidenceRecord :=
  { result := .pass, location := some "src/routes/health.js:8",
    note := "handler returns 200", expected := none, actual := none }

/-- Evidence reporting PASS for assertion A1 and nothing else. -/
def examplePassEvidence : Evidence :=
  fun id => if id = "A1" then some examplePassRecord else none

/-- An empty evidence report. -/
def emptyEvidence : Evidence := fun _ => none

/-- A packet of eight well-formed assertions (its only lint problem is the
7x7 cap). -/
def eightAssertionPacket : SpecPacket :=
  { version := 1, intent := "intent", assertions := List.replicate 8 exampleAssertion,
    constraints := [], fileScope := [] }

/-- A submission whose evidence report is empty: Gate 2 fails on it. -/
def exampleBadSubmission : Submission :=
  { packet := examplePacket, evidence := emptyEvidence, modifiedFiles := [] }

/-- A one-task environment in which task 1 reported all-PASS evidence. -/
def exampleTaskEnv : TaskEnv :=
  fun tid => if tid = 1 then some (examplePacket, examplePassEvidence) else none

/-- A tracker entry for a single-task active feature. -/
def exampleFeature : Feature :=
  { id := "F-001", title := "Health Check Endpoint", phase := .active,
    specOverview := "planning-artifacts/spec-F-001-health-check-overview.md",
    tasks := [1], verified := false }

/-- A four-task feature three of whose tasks are BLOCKED under
`stalledStates`. -/
def stalledFeature : Feature :=
  { id := "F-002", title := "Stalled Feature", phase := .active,
    specOverview := "planning-artifacts/spec-F-002-stalled-overview.md",
    tasks := [1, 2, 3, 4], verified := false }

/-- Task states under which tasks 1-3 are BLOCKED. -/
def stalledStates : TaskStates :=
  fun tid => if tid ≤ 3 then .blocked else .executing

/-- A framed raw submission carrying all five required fields. -/
def goodRawSubmission : RawSubmission :=
  { framed := true,
    body := [.kv "version" "1", .kv "intent" "Implement GET /health",
             .kv "assertions" "A1", .kv "constraints" "none",
             .kv "file_scope" "a.txt"] }

/-! ## Helper lemmas -/

/-- The vocabulary check holds exactly when the positive field carries exactly
one positive-form modal keyword and the negative field carries exactly the
opposite keyword of the same pair. -/
theorem assertionVocabOK_iff (a : Assertion) :
    assertionVocabOK a = true ↔
      ∃ k : ModalKeyword, k.positiveForm = true ∧
        modalKeywords a.positive = [k] ∧ modalKeywords a.negative = [k.opposite] := by
  unfold assertionVocabOK
  rcases hp : modalKeywords a.positive with _ | ⟨kp, _ | ⟨kp2, tp⟩⟩ <;>
    rcases hn : modalKeywords a.negative with _ | ⟨kn, _ | ⟨kn2, tn⟩⟩ <;>
      (simp [Bool.and_eq_true, beq_iff_eq]; try aesop)

/-- The quality check holds exactly when no banned term appears without a
stated observable. -/
theorem assertionQualityOK_iff (a : Assertion) :
    assertionQualityOK a = true ↔
      (hasBannedTerm (a.positive ++ a.negative) = true →
        hasObservable (a.positive ++ a.negative) = true) := by
  unfold assertionQualityOK
  cases hb : hasBannedTerm (a.positive ++ a.negative) <;>
    cases ho : hasObservable (a.positive ++ a.negative) <;> simp

/-- Claim C2: the Lint Gate passes a packet iff every assertion carries exactly
one positive-form modal keyword in `positive` with the opposite keyword of the
same pair in `negative`, no banned unfalsifiable term appears in an assertion
without a stated specific observable, and — beyond what the claim lists — the
packet respects the 7-assertion cap of the 7x7 constraint. -/
theorem lintGate_passes_iff_vocab_quality_and_cap (p : SpecPacket) :
    specLintGate p = true ↔
      ((∀ a ∈ p.assertions, ∃ k : ModalKeyword, k.positiveForm = true ∧
          modalKeywords a.positive = [k] ∧ modalKeywords a.negative = [k.opposite]) ∧
        (∀ a ∈ p.assertions, hasBannedTerm (a.positive ++ a.negative) = true →
          hasObservable (a.positive ++ a.negative) = true) ∧
        p.assertions.length ≤ 7) := by
  unfold specLintGate specLintViolations
  rw [List.isEmpty_iff]
  simp only [List.append_eq_nil, List.filterMap_eq_nil_iff]
  constructor
  · rintro ⟨⟨h1, h2⟩, h3⟩
    refine ⟨?_, ?_, ?_⟩
    · intro a ha
      rw [← assertionVocabOK_iff]
      have := h1 a ha
      by_contra hv
      simp [Bool.not_eq_true] at hv
      simp [hv] at this
    · intro a ha
      rw [← assertionQualityOK_iff]
      have := h2 a ha
      by_contra hv
      simp [Bool.not_eq_true] at hv
      simp [hv] at this
    · by_contra hlen
      simp [hlen] at h3
  · rintro ⟨h1, h2, h3⟩
    refine ⟨⟨?_, ?_⟩, ?_⟩
    · intro a ha
      have := (assertionVocabOK_iff a).mpr (h1 a ha)
      simp [this]
    · intro a ha
      have := (assertionQualityOK_iff a).mpr (h2 a ha)
      simp [this]
    · simp [h3]

/-- Counterexample to claim C2 as stated: a packet of eight well-formed
assertions satisfies the vocabulary and quality conditions but the Lint Gate
rejects it (7x7 constraint). -/
theorem lintGate_counterexample_eight_assertions :
    ¬ (specLintGate eightAssertionPacket = true ↔
        (eightAssertionPacket.assertions.all assertionVocabOK = true ∧
          eightAssertionPacket.assertions.all assertionQualityOK = true)) := by
  decide

/-- Witness for claim C2: the amended equivalence applied to the concrete
one-assertion packet. -/
theorem lintGate_passes_witness : specLintGate examplePacket = true := by
  refine (lintGate_passes_iff_vocab_quality_and_cap examplePacket).mpr ⟨?_, ?_, ?_⟩
  · intro a ha
    simp only [examplePacket, exampleAssertion] at ha
    simp only [List.mem_singleton] at ha
    subst ha
    exact ⟨.must, rfl, rfl, rfl⟩
  · intro a ha
    simp only [examplePacket, exampleAssertion] at ha
    simp only [List.mem_singleton] at ha
    subst ha
    intro h
    rfl
  · decide

/-- The NOT DONE check holds exactly when every assertion id of the packet has
an evidence record whose result is PASS. -/
theorem allAssertionsPass_iff (p : SpecPacket) (ev : Evidence) :
    allAssertionsPass p ev = true ↔
      ∀ a ∈ p.assertions, ∃ r, ev a.id = some r ∧ r.result = .pass := by
  unfold allAssertionsPass
  rw [List.all_eq_true]
  constructor
  · intro h a ha
    have := h a ha
    cases hv : ev a.id with
    | none => simp [hv] at this
    | some r =>
      rw [hv] at this
      simp only [beq_iff_eq] at this
      exact ⟨r, rfl, this⟩
  · intro h a ha
    obtain ⟨r, hr, hres⟩ := h a ha
    rw [hr]
    simp [hres]

/-- Claim C1: for a task whose packet is ratified (hence lint-clean), checking
a completion moves it from EXECUTING to VERIFIED iff the Assertion Audit and
File Scope gates pass and every assertion id of the packet has an evidence
record whose result is PASS; whenever some assertion id is missing or some
record is FAIL the task remains EXECUTING. -/
theorem executing_to_verified_iff (p : SpecPacket) (ev : Evidence)
    (modifiedFiles : List String) (hRatified : specLintGate p = true) :
    (executingTransition p ev modifiedFiles = .verified ↔
      (assertionAuditGate p ev = true ∧ fileScopeGate p modifiedFiles = true ∧
        ∀ a ∈ p.assertions, ∃ r, ev a.id = some r ∧ r.result = .pass)) ∧
    (allAssertionsPass p ev = false →
      executingTransition p ev modifiedFiles = .executing) := by
  constructor
  · unfold executingTransition verificationVerdict
    rw [← allAssertionsPass_iff]
    constructor
    · intro h
      by_contra hc
      rw [if_neg] at h
      · exact TaskState.noConfusion h
      · intro hand
        simp only [Bool.and_eq_true] at hand
        exact hc ⟨hand.1.1.2, hand.1.2, hand.2⟩
    · rintro ⟨h2, h3, h4⟩
      rw [if_pos]
      simp [hRatified, h2, h3, h4]
  · intro hfail
    unfold executingTransition verificationVerdict
    rw [if_neg]
    intro hand
    simp only [Bool.and_eq_true] at hand
    rw [hand.2] at hfail
    exact Bool.noConfusion hfail

/-- Counterexample to claim C1 as stated: with the ratified example packet and
all-PASS evidence, a completion that modified a file outside the packet's
file scope is not VERIFIED, refuting the biconditional that ignores the gate
pipeline. -/
theorem executing_to_verified_counterexample :
    ¬ (specLintGate examplePacket = true →
        (executingTransition examplePacket examplePassEvidence ["a.txt", "b.txt"]
            = TaskState.verified ↔
          allAssertionsPass examplePacket examplePassEvidence = true)) := by
  decide

/-- Witness for claim C1: the amended equivalence applied to the concrete
packet, all-PASS evidence and an in-scope modification set. -/
theorem executing_to_verified_witness :
    executingTransition examplePacket examplePassEvidence ["a.txt"]
      = TaskState.verified := by
  refine ((executing_to_verified_iff examplePacket examplePassEvidence ["a.txt"]
    (by decide)).1).mpr ⟨by decide, by decide, ?_⟩
  intro a ha
  simp only [examplePacket, exampleAssertion, List.mem_singleton] at ha
  subst ha
  exact ⟨examplePassRecord, rfl, rfl⟩

/-- A finding produced by a single gate carries that gate's name and the check
and message of one of its actual violations. -/
theorem gateFinding_sound (g : GateName) (s : Submission) (f : Finding)
    (h : gateFinding g s = some f) :
    f.gate = g ∧ ∃ v ∈ gateViolations g s, f.check = v.check ∧ f.message = v.message := by
  unfold gateFinding at h
  cases hv : gateViolations g s with
  | nil => rw [hv] at h; exact Option.noConfusion h
  | cons v tl =>
    rw [hv] at h
    injection h with h
    subst h
    exact ⟨rfl, v, by simp, rfl, rfl⟩

/-- A finding returned by the ordered gate run is a sound finding of the gate
it names. -/
theorem runGates_sound (s : Submission) (f : Finding) (h : runGates s = some f) :
    ∃ v ∈ gateViolations f.gate s, f.check = v.check ∧ f.message = v.message := by
  unfold runGates at h
  cases h1 : gateFinding .specLint s with
  | some f1 =>
    rw [h1] at h; injection h with h; subst h
    have := gateFinding_sound _ _ _ h1
    rw [this.1]; exact this.2
  | none =>
    rw [h1] at h
    cases h2 : gateFinding .assertionAudit s with
    | some f2 =>
      rw [h2] at h; injection h with h; subst h
      have := gateFinding_sound _ _ _ h2
      rw [this.1]; exact this.2
    | none =>
      rw [h2] at h
      have := gateFinding_sound _ _ _ h
      rw [this.1]; exact this.2

/-- Claim C3: uniform gate-pipeline failure handling — any returned finding is
the specific gate/check/message of an actual violation; after a first failure
there is exactly one retry, whose full three-gate re-run alone decides the
outcome (independent of the first failing submission); a passing retry
proceeds to review, and a second failure blocks the task with the retry's
specific finding, regardless of which gate failed either time. -/
theorem gate_pipeline_failure_handling :
    (∀ s f, runGates s = some f →
      ∃ v ∈ gateViolations f.gate s, f.check = v.check ∧ f.message = v.message) ∧
    (∀ s1 s2 f1, runGates s1 = some f1 → runGates s2 = none →
      gatePhase s1 s2 = .proceedToReview) ∧
    (∀ s1 s2 f1 f2, runGates s1 = some f1 → runGates s2 = some f2 →
      gatePhase s1 s2 = .blocked f2) ∧
    (∀ s1 s1' s2 f1 f1', runGates s1 = some f1 → runGates s1' = some f1' →
      gatePhase s1 s2 = gatePhase s1' s2) ∧
    (∀ s1 s2 f, gatePhase s1 s2 = .blocked f → runGates s2 = some f) := by
  refine ⟨runGates_sound, ?_, ?_, ?_, ?_⟩
  · intro s1 s2 f1 h1 h2
    unfold gatePhase
    rw [h1, h2]
  · intro s1 s2 f1 f2 h1 h2
    unfold gatePhase
    rw [h1, h2]
  · intro s1 s1' s2 f1 f1' h1 h1'
    unfold gatePhase
    rw [h1, h1']
  · intro s1 s2 f h
    unfold gatePhase at h
    cases h1 : runGates s1 with
    | none => rw [h1] at h; exact PipelineOutcome.noConfusion h
    | some f1 =>
      rw [h1] at h
      cases h2 : runGates s2 with
      | none => rw [h2] at h; exact PipelineOutcome.noConfusion h
      | some f2 =>
        rw [h2] at h
        injection h with h
        rw [h]

/-- Witness for claim C3: the submission with an empty evidence report fails
Gate 2 with its specific completeness finding, and failing twice blocks the
task with that finding. -/
theorem gate_pipeline_witness :
    gatePhase exampleBadSubmission exampleBadSubmission =
      PipelineOutcome.blocked
        ⟨.assertionAudit, "completeness", "Missing evidence for assertion: A1"⟩ :=
  gate_pipeline_failure_handling.2.2.1 exampleBadSubmission exampleBadSubmission
    ⟨.assertionAudit, "completeness", "Missing evidence for assertion: A1"⟩
    ⟨.assertionAudit, "completeness", "Missing evidence for assertion: A1"⟩
    (by decide) (by decide)

/-- VERIFIED is terminal for the escalation machine. -/
theorem escalationRun_verified (es : List ExecEvent) :
    escalationRun .verified es = .verified := by
  induction es with
  | nil => rfl
  | cons e es ih => simpa [escalationRun, escalationStep] using ih

/-- BLOCKED (Red) is terminal: no event sequence moves a blocked task. -/
theorem escalationRun_blocked (es : List ExecEvent) :
    escalationRun .blocked es = .blocked := by
  induction es with
  | nil => rfl
  | cons e es ih => simpa [escalationRun, escalationStep] using ih

/-- Budget invariant for runs that end BLOCKED: reaching Red from an executing
state requires either a second gate failure (counting one already consumed by
a spent retry) or a third NEEDS_CHANGES review cycle (counting those already
consumed). -/
theorem count_gateFail_cons_gateFail (es : List ExecEvent) :
    List.count ExecEvent.gateFail (ExecEvent.gateFail :: es) =
      List.count ExecEvent.gateFail es + 1 := by
  simp [List.count_cons]

theorem count_review_cons_gateFail (es : List ExecEvent) :
    List.count ExecEvent.reviewNeedsChanges (ExecEvent.gateFail :: es) =
      List.count ExecEvent.reviewNeedsChanges es := by
  simp [List.count_cons]

theorem count_gateFail_cons_review (es : List ExecEvent) :
    List.count ExecEvent.gateFail (ExecEvent.reviewNeedsChanges :: es) =
      List.count ExecEvent.gateFail es := by
  simp [List.count_cons]

theorem count_review_cons_review (es : List ExecEvent) :
    List.count ExecEvent.reviewNeedsChanges (ExecEvent.reviewNeedsChanges :: es) =
      List.count ExecEvent.reviewNeedsChanges es + 1 := by
  simp [List.count_cons]

theorem escalationRun_blocked_budgets (es : List ExecEvent) :
    ∀ r c, escalationRun (.executing r c) es = .blocked →
      2 ≤ r.toNat + es.count ExecEvent.gateFail ∨
      3 ≤ c + es.count ExecEvent.reviewNeedsChanges := by
  induction es with
  | nil => intro r c h; exact ExecState.noConfusion h
  | cons e es ih =>
    intro r c h
    cases e with
    | gateFail =>
      cases r with
      | true =>
        left
        rw [count_gateFail_cons_gateFail, Bool.toNat_true]
        omega
      | false =>
        simp only [escalationRun, escalationStep] at h
        rcases ih true c h with h1 | h1
        · left
          rw [Bool.toNat_true] at h1
          rw [count_gateFail_cons_gateFail, Bool.toNat_false]
          omega
        · right
          rw [count_review_cons_gateFail]
          exact h1
    | reviewNeedsChanges =>
      simp only [escalationRun, escalationStep] at h
      by_cases hc : 3 ≤ c + 1
      · right
        rw [count_review_cons_review]
        omega
      · rw [if_neg hc] at h
        rcases ih false (c + 1) h with h1 | h1
        · left
          rw [Bool.toNat_false] at h1
          rw [count_gateFail_cons_review]
          omega
        · right
          rw [count_review_cons_review]
          omega
    | reviewApproved =>
      simp only [escalationRun, escalationStep] at h
      rw [escalationRun_verified] at h
      exact ExecState.noConfusion h

/-- Claim C4 (amended): a task reaches Red (BLOCKED) only when a retry budget
is exhausted — at least two gate failures (the single retry spent and failed
again) or at least three NEEDS_CHANGES review cycles — and once Red the task
never automatically leaves BLOCKED. -/
theorem red_requires_exhausted_budget_and_is_terminal :
    (∀ es : List ExecEvent, escalationRun initialExec es = .blocked →
      2 ≤ es.count ExecEvent.gateFail ∨
      3 ≤ es.count ExecEvent.reviewNeedsChanges) ∧
    (∀ es : List ExecEvent, escalationRun .blocked es = .blocked) := by
  constructor
  · intro es h
    have := escalationRun_blocked_budgets es false 0 h
    simpa using this
  · exact escalationRun_blocked

/-- Counterexample to claim C4 as stated: two gate failures alone mark the
task BLOCKED although zero review cycles were consumed, so Red does not
require the 3 review cycles to be exhausted as well. -/
theorem red_counterexample_gate_failures_only :
    ¬ (escalationRun initialExec [ExecEvent.gateFail, ExecEvent.gateFail]
          = ExecState.blocked →
        3 ≤ List.count ExecEvent.reviewNeedsChanges
          [ExecEvent.gateFail, ExecEvent.gateFail]) := by
  decide

/-- Witness for claim C4: the amended theorem applied to the two-gate-failure
run and to resuming a blocked task. -/
theorem red_budget_witness :
    (2 ≤ List.count ExecEvent.gateFail
        [ExecEvent.gateFail, ExecEvent.gateFail] ∨
      3 ≤ List.count ExecEvent.reviewNeedsChanges
        [ExecEvent.gateFail, ExecEvent.gateFail]) ∧
    escalationRun .blocked [ExecEvent.reviewApproved] = .blocked :=
  ⟨red_requires_exhausted_budget_and_is_terminal.1
      [ExecEvent.gateFail, ExecEvent.gateFail] (by decide),
    red_requires_exhausted_budget_and_is_terminal.2 [ExecEvent.reviewApproved]⟩

/-- Claim C5: tracker recomputation is an idempotent function of the tasks'
completion states.  For a feature not yet marked done, recomputation yields
`verified = true` iff every task id is complete (a task with no evidence
report, a FAIL assertion or a missing assertion id keeps it false), the phase
becomes DONE exactly when `verified` becomes true, and recomputing twice from
the same task states gives the same result as recomputing once. -/
theorem recompute_verified_iff_idempotent (env : TaskEnv) (f : Feature)
    (hv : f.verified = false) (hp : f.phase ≠ .done) :
    ((recomputeFeature env f).verified = true ↔
      ∀ tid ∈ f.tasks, taskComplete env tid = true) ∧
    ((recomputeFeature env f).phase = .done ↔
      (recomputeFeature env f).verified = true) ∧
    recomputeFeature env (recomputeFeature env f) = recomputeFeature env f := by
  unfold recomputeFeature
  by_cases h : f.tasks.all (taskComplete env) = true
  · rw [if_pos h]
    refine ⟨?_, by simp, ?_⟩
    · simp only [List.all_eq_true] at h
      simpa using h
    · rw [if_pos h]
  · rw [if_neg h]
    refine ⟨?_, ?_, ?_⟩
    · rw [← List.all_eq_true]
      simp [hv, h]
    · simp [hv, hp]
    · rw [if_neg h]

/-- Witness for claim C5: recomputing the single-task feature whose task
reported all-PASS evidence marks it verified. -/
theorem recompute_witness :
    (recomputeFeature exampleTaskEnv exampleFeature).verified = true := by
  refine (recompute_verified_iff_idempotent exampleTaskEnv exampleFeature rfl
    (by decide)).1.mpr ?_
  intro tid htid
  simp only [exampleFeature, List.mem_singleton] at htid
  subst htid
  decide

/-- Every id allocated from the global monotone counter is at least the
counter's value. -/
theorem allocTaskIds_ge (next k : Nat) :
    ∀ r ∈ allocTaskIds next k, next ≤ r := by
  induction k generalizing next with
  | zero => intro r hr; exact absurd hr (List.not_mem_nil r)
  | succ k ih =>
    intro r hr
    unfold allocTaskIds at hr
    rcases List.mem_cons.mp hr with h | h
    · omega
    · have := ih (next + 1) r h
      omega

/-- Claim C6: when a feature counts 3 BLOCKED tasks, the stall detector halts
dispatch of its remaining tasks and flags NEEDS_RESPEC; re-specification with
replacement ids drawn from the global monotone counter keeps the feature's id,
leaves it ACTIVE with the updated task set, and the replacement ids are new —
none of them reuses an id of the existing task set. -/
theorem stall_halts_and_respec_keeps_feature (states : TaskStates) (f : Feature)
    (next k : Nat) (hstall : 3 ≤ blockedCount states f)
    (hmono : ∀ t ∈ f.tasks, t < next) :
    (stallCheck states f).haltDispatch = true ∧
    (stallCheck states f).needsRespec = true ∧
    dispatchAllowed states f = false ∧
    (respecFeature states f (allocTaskIds next k)).id = f.id ∧
    (respecFeature states f (allocTaskIds next k)).phase = .active ∧
    (∀ r ∈ allocTaskIds next k,
      r ∉ f.tasks ∧ r ∈ (respecFeature states f (allocTaskIds next k)).tasks) := by
  have hs : featureStalled states f = true := by
    unfold featureStalled
    exact decide_eq_true hstall
  refine ⟨?_, ?_, ?_, rfl, rfl, ?_⟩
  · unfold stallCheck
    rw [if_pos hs]
  · unfold stallCheck
    rw [if_pos hs]
  · unfold dispatchAllowed
    rw [hs]
    rfl
  · intro r hr
    constructor
    · intro hmem
      have h1 := hmono r hmem
      have h2 := allocTaskIds_ge next k r hr
      omega
    · unfold respecFeature
      simp only []
      exact List.mem_append_right _ hr

/-- Witness for claim C6: the stalled four-task feature with three BLOCKED
tasks, re-specced with two fresh ids from counter value 5. -/
theorem stall_respec_witness :
    (stallCheck stalledStates stalledFeature).needsRespec = true ∧
    (respecFeature stalledStates stalledFeature (allocTaskIds 5 2)).phase
      = .active := by
  have h := stall_halts_and_respec_keeps_feature stalledStates stalledFeature 5 2
    (by decide) (by decide)
  exact ⟨h.2.1, h.2.2.2.2.1⟩

/-- A packet recovered by the strict parser carries every required field. -/
theorem strictParse_complete (s : RawSubmission) (p : RawPacket)
    (h : strictParse s = .ok p) : p.complete = true := by
  unfold strictParse at h
  by_cases hf : s.framed = true
  · rw [if_neg (by simp [hf])] at h
    rcases hj : s.body.find? fun l =>
      match l with
      | .junk _ => true
      | _ => false with _ | ⟨l⟩
    · rw [hj] at h
      rcases hk : requiredFields.find? fun k =>
        !((recognizedFields s.body).map Prod.fst).contains k with _ | ⟨k⟩
      · rw [hk] at h
        injection h with h
        subst h
        unfold RawPacket.complete
        rw [List.all_eq_true]
        intro k hk2
        have := List.find?_eq_none.mp hk k hk2
        simpa using this
      · rw [hk] at h
        exact Except.noConfusion h
    · rw [hj] at h
      cases l <;> exact Except.noConfusion h
  · rw [if_pos (by simpa using hf)] at h
    exact Except.noConfusion h

/-- A packet recovered by the forgiving parser carries every required field. -/
theorem forgivingParse_complete (s : RawSubmission) (p : RawPacket)
    (h : forgivingParse s = .ok p) : p.complete = true := by
  unfold forgivingParse at h
  by_cases hf : s.framed = true
  · rw [if_neg (by simp [hf])] at h
    rcases hk : requiredFields.find? fun k =>
      !((recognizedFields s.body).map Prod.fst).contains k with _ | ⟨k⟩
    · rw [hk] at h
      injection h with h
      subst h
      unfold RawPacket.complete
      rw [List.all_eq_true]
      intro k hk2
      have := List.find?_eq_none.mp hk k hk2
      simpa using this
    · rw [hk] at h
      exact Except.noConfusion h
  · rw [if_pos (by simpa using hf)] at h
    exact Except.noConfusion h

/-- Claim C7: the parse path runs the strict parser, then exactly one
resubmission built from the parser's error, then the forgiving parser on that
resubmission; every accepted packet carries all required fields, and when all
three attempts fail the task is BLOCKED with the forgiving parser's specific
diagnostic — never an empty or silently degraded packet. -/
theorem parse_path_never_degrades (first : RawSubmission)
    (resubmit : ParseError → RawSubmission) :
    (∀ p, parsePath first resubmit = .accepted p → p.complete = true) ∧
    (∀ p, strictParse first = .ok p → parsePath first resubmit = .accepted p) ∧
    (∀ e1 p, strictParse first = .error e1 → strictParse (resubmit e1) = .ok p →
      parsePath first resubmit = .accepted p) ∧
    (∀ e1 e2 p, strictParse first = .error e1 →
      strictParse (resubmit e1) = .error e2 →
      forgivingParse (resubmit e1) = .ok p →
      parsePath first resubmit = .accepted p) ∧
    (∀ e, parsePath first resubmit = .blockedWithDiagnostic e →
      ∃ e1 e2, strictParse first = .error e1 ∧
        strictParse (resubmit e1) = .error e2 ∧
        forgivingParse (resubmit e1) = .error e) := by
  refine ⟨?_, ?_, ?_, ?_, ?_⟩
  · intro p hp
    unfold parsePath at hp
    rcases h1 : strictParse first with e1 | p1
    · simp only [h1] at hp
      rcases h2 : strictParse (resubmit e1) with e2 | p2
      · simp only [h2] at hp
        rcases h3 : forgivingParse (resubmit e1) with e3 | p3
        · simp only [h3] at hp
          exact ParseOutcome.noConfusion hp
        · simp only [h3, ParseOutcome.accepted.injEq] at hp
          subst hp
          exact forgivingParse_complete _ _ h3
      · simp only [h2, ParseOutcome.accepted.injEq] at hp
        subst hp
        exact strictParse_complete _ _ h2
    · simp only [h1, ParseOutcome.accepted.injEq] at hp
      subst hp
      exact strictParse_complete _ _ h1
  · intro p hp
    unfold parsePath
    simp only [hp]
  · intro e1 p h1 h2
    unfold parsePath
    simp only [h1, h2]
  · intro e1 e2 p h1 h2 h3
    unfold parsePath
    simp only [h1, h2, h3]
  · intro e he
    unfold parsePath at he
    rcases h1 : strictParse first with e1 | p1
    · simp only [h1] at he
      rcases h2 : strictParse (resubmit e1) with e2 | p2
      · simp only [h2] at he
        rcases h3 : forgivingParse (resubmit e1) with e3 | p3
        · simp only [h3, ParseOutcome.blockedWithDiagnostic.injEq] at he
          subst he
          exact ⟨e1, e2, rfl, h2, h3⟩
        · simp only [h3] at he
          exact ParseOutcome.noConfusion he
      · simp only [h2] at he
        exact ParseOutcome.noConfusion he
    · simp only [h1] at he
      exact ParseOutcome.noConfusion he

/-- Witness for claim C7: the well-formed raw submission is accepted on the
strict path with all five required fields recovered. -/
theorem parse_path_witness :
    parsePath goodRawSubmission (fun _ => goodRawSubmission) =
      .accepted ⟨[("version", "1"), ("intent", "Implement GET /health"),
        ("assertions", "A1"), ("constraints", "none"),
        ("file_scope", "a.txt")]⟩ :=
  (parse_path_never_degrades goodRawSubmission (fun _ => goodRawSubmission)).2.1
    ⟨[("version", "1"), ("intent", "Implement GET /health"),
      ("assertions", "A1"), ("constraints", "none"),
      ("file_scope", "a.txt")]⟩ (by rfl)

/-- The lowest tier is neutral for the classify-up maximum. -/
theorem maxTier_trivial_left (a : Tier) : Tier.maxTier .trivialT a = a := by
  cases a <;> rfl

/-- Rank of the tier maximum is the maximum of the ranks. -/
theorem rank_maxTier (a b : Tier) :
    (Tier.maxTier a b).rank = Nat.max a.rank b.rank := by
  cases a <;> cases b <;> decide

/-- The tier maximum is one of its arguments. -/
theorem maxTier_cases (a b : Tier) :
    Tier.maxTier a b = a ∨ Tier.maxTier a b = b := by
  unfold Tier.maxTier
  split
  · exact Or.inr rfl
  · exact Or.inl rfl

/-- The classifier is the iterated classify-up maximum of the four bands. -/
theorem classify_eq (s : TaskSignals) :
    classifyTier s =
      Tier.maxTier (Tier.maxTier (Tier.maxTier (filesBand s.filesTouched)
        s.riskOfDrift.band) s.novelty.band) s.coupling.band := by
  unfold classifyTier signalBands
  simp only [List.foldl_cons, List.foldl_nil, maxTier_trivial_left]

/-- Rank of the files-touched band as a nested conditional. -/
theorem filesBand_rank (n : Nat) :
    (filesBand n).rank =
      if n ≤ 1 then 0 else if n ≤ 2 then 1 else if n ≤ 5 then 2 else 3 := by
  unfold filesBand
  split_ifs <;> rfl

/-- The files-touched band never decreases as more files are touched. -/
theorem filesBand_rank_mono (n m : Nat) (h : n ≤ m) :
    (filesBand n).rank ≤ (filesBand m).rank := by
  rw [filesBand_rank, filesBand_rank]
  split_ifs <;> omega

/-- A qualitative signal's band never decreases with its severity. -/
theorem band_rank_mono (l1 l2 : SignalLevel) :
    l1.rank ≤ l2.rank → (SignalLevel.band l1).rank ≤ (SignalLevel.band l2).rank := by
  cases l1 <;> cases l2 <;> decide

/-- Claim C8: the tier classifier returns the maximum band across the four
signals of the decision table — the result is one of the bands and no band
exceeds it; it is deterministic, and raising any single signal's severity
while holding the others fixed never lowers the resulting tier. -/
theorem tier_classifier_max_deterministic_monotonic :
    (∀ s t : TaskSignals, s = t → classifyTier s = classifyTier t) ∧
    (∀ s : TaskSignals, classifyTier s ∈ signalBands s) ∧
    (∀ s : TaskSignals, ∀ b ∈ signalBands s, b.rank ≤ (classifyTier s).rank) ∧
    (∀ (s : TaskSignals) (n : Nat), s.filesTouched ≤ n →
      (classifyTier s).rank ≤ (classifyTier { s with filesTouched := n }).rank) ∧
    (∀ (s : TaskSignals) (l : SignalLevel), s.riskOfDrift.rank ≤ l.rank →
      (classifyTier s).rank ≤ (classifyTier { s with riskOfDrift := l }).rank) ∧
    (∀ (s : TaskSignals) (l : SignalLevel), s.novelty.rank ≤ l.rank →
      (classifyTier s).rank ≤ (classifyTier { s with novelty := l }).rank) ∧
    (∀ (s : TaskSignals) (l : SignalLevel), s.coupling.rank ≤ l.rank →
      (classifyTier s).rank ≤ (classifyTier { s with coupling := l }).rank) := by
  refine ⟨?_, ?_, ?_, ?_, ?_, ?_, ?_⟩
  · intro s t h
    rw [h]
  · intro s
    unfold signalBands
    rw [classify_eq]
    rcases maxTier_cases (Tier.maxTier (Tier.maxTier (filesBand s.filesTouched)
      s.riskOfDrift.band) s.novelty.band) s.coupling.band with h4 | h4
    · rw [h4]
      rcases maxTier_cases (Tier.maxTier (filesBand s.filesTouched)
        s.riskOfDrift.band) s.novelty.band with h3 | h3
      · rw [h3]
        rcases maxTier_cases (filesBand s.filesTouched) s.riskOfDrift.band
          with h2 | h2 <;> rw [h2] <;> simp
      · rw [h3]; simp
    · rw [h4]; simp
  · intro s b hb
    rw [classify_eq]
    simp only [signalBands, List.mem_cons, List.not_mem_nil, or_false] at hb
    simp only [rank_maxTier]
    rcases hb with h | h | h | h <;> rw [h]
    · exact le_trans (le_trans (Nat.le_max_left _ _) (Nat.le_max_left _ _))
        (Nat.le_max_left _ _)
    · exact le_trans (le_trans (Nat.le_max_right _ _) (Nat.le_max_left _ _))
        (Nat.le_max_left _ _)
    · exact le_trans (Nat.le_max_right _ _) (Nat.le_max_left _ _)
    · exact Nat.le_max_right _ _
  · intro s n h
    have hm := filesBand_rank_mono s.filesTouched n h
    rw [classify_eq, classify_eq]
    simp only [rank_maxTier]
    exact max_le_max (max_le_max (max_le_max hm le_rfl) le_rfl) le_rfl
  · intro s l h
    have hm := band_rank_mono s.riskOfDrift l h
    rw [classify_eq, classify_eq]
    simp only [rank_maxTier]
    exact max_le_max (max_le_max (max_le_max le_rfl hm) le_rfl) le_rfl
  · intro s l h
    have hm := band_rank_mono s.novelty l h
    rw [classify_eq, classify_eq]
    simp only [rank_maxTier]
    exact max_le_max (max_le_max le_rfl hm) le_rfl
  · intro s l h
    have hm := band_rank_mono s.coupling l h
    rw [classify_eq, classify_eq]
    simp only [rank_maxTier]
    exact max_le_max le_rfl hm

/-- Witness for claim C8: the classifier applied at concrete signal vectors —
touching more files never lowers the tier, and the tier of a high-novelty
single-file task is one of its signal bands. -/
theorem tier_classifier_witness :
    (classifyTier ⟨1, .base, .base, .base⟩).rank ≤
      (classifyTier ⟨3, .base, .base, .base⟩).rank ∧
    classifyTier ⟨1, .base, .high, .base⟩ ∈ signalBands ⟨1, .base, .high, .base⟩ :=
  ⟨tier_classifier_max_deterministic_monotonic.2.2.2.1
      ⟨1, .base, .base, .base⟩ 3 (by decide),
    tier_classifier_max_deterministic_monotonic.2.1 ⟨1, .base, .high, .base⟩⟩

/-- Claim C9: when the tracker store is missing or fails to parse, processing
a task completion yields exactly the same per-task states and evidence log as
with a healthy tracker — gating and task transitions are unchanged; only the
feature-level aggregation stays paused (the tracker remains `none`); and no
task id or previously logged evidence record is lost — the task-id list is
preserved and the evidence log only grows by appending the completion's
records. -/
theorem tracker_degradation_preserves_tasks
    (tasks : List (Nat × TaskState)) (log : List (Nat × String × EvidenceRecord))
    (store : TrackerStore) (c : CompletionInput) (env : TaskEnv)
    (st : OrchestratorState) :
    ((processCompletion ⟨tasks, log, some store⟩ c env).taskStates =
      (processCompletion ⟨tasks, log, none⟩ c env).taskStates) ∧
    ((processCompletion ⟨tasks, log, some store⟩ c env).evidenceLog =
      (processCompletion ⟨tasks, log, none⟩ c env).evidenceLog) ∧
    ((processCompletion ⟨tasks, log, none⟩ c env).tracker = none) ∧
    ((processCompletion st c env).taskStates.map Prod.fst =
      st.taskStates.map Prod.fst) ∧
    ((processCompletion st c env).evidenceLog =
      st.evidenceLog ++ completionRecords c) := by
  refine ⟨rfl, rfl, rfl, ?_, rfl⟩
  unfold processCompletion updateTaskState
  simp only [List.map_map]
  apply List.map_congr_left
  intro a _
  by_cases h : a.1 = c.taskId
  · simp [h]
  · simp [h]

/-- Every year has at least 365 days. -/
theorem daysInYear_ge (y : Nat) : 365 ≤ daysInYear y := by
  unfold daysInYear
  split <;> omega

/-- Unfolding step of the year-range day count. -/
theorem daysInRange_succ (y n : Nat) :
    daysInRange y (n + 1) = daysInYear y + daysInRange (y + 1) n := rfl

/-- The year-peeling loop accounts for every day: it advances the year by some
count and leaves a remainder that together recombine to the input. -/
theorem splitYearAux_inv (fuel : Nat) :
    ∀ y d, ∃ n, (splitYearAux fuel y d).1 = y + n ∧
      daysInRange y n + (splitYearAux fuel y d).2 = d := by
  induction fuel with
  | zero =>
    intro y d
    exact ⟨0, rfl, by simp [splitYearAux, daysInRange]⟩
  | succ fuel ih =>
    intro y d
    unfold splitYearAux
    split
    · exact ⟨0, rfl, by simp [daysInRange]⟩
    · obtain ⟨n, h1, h2⟩ := ih (y + 1) (d - daysInYear y)
      refine ⟨n + 1, by rw [h1]; omega, ?_⟩
      rw [daysInRange_succ]
      have hge := daysInYear_ge y
      omega

/-- With sufficient fuel the year-peeling loop ends inside a year. -/
theorem splitYearAux_bounded (fuel : Nat) :
    ∀ y d, d < 365 * fuel →
      (splitYearAux fuel y d).2 < daysInYear (splitYearAux fuel y d).1 := by
  induction fuel with
  | zero => intro y d h; omega
  | succ fuel ih =>
    intro y d h
    unfold splitYearAux
    split
    · assumption
    · apply ih
      have hge := daysInYear_ge y
      omega

/-- Splitting days-since-epoch gives a post-1970 year, a day-of-year inside
that year, and the two recombine to the input. -/
theorem splitYear_inv (d : Nat) :
    1970 ≤ (splitYear d).1 ∧
      daysInRange 1970 ((splitYear d).1 - 1970) + (splitYear d).2 = d ∧
      (splitYear d).2 < daysInYear (splitYear d).1 := by
  obtain ⟨n, h1, h2⟩ := splitYearAux_inv (d / 365 + 1) 1970 d
  have hb := splitYearAux_bounded (d / 365 + 1) 1970 d (by omega)
  unfold splitYear
  refine ⟨by omega, ?_, hb⟩
  have : (splitYearAux (d / 365 + 1) 1970 d).1 - 1970 = n := by omega
  rw [this]
  exact h2

/-- Leap-year rule as arithmetic. -/
theorem isLeapYear_spec (y : Nat) :
    isLeapYear y = true ↔ ((y % 4 = 0 ∧ ¬ y % 100 = 0) ∨ y % 400 = 0) := by
  unfold isLeapYear
  simp [Bool.or_eq_true, Bool.and_eq_true, beq_iff_eq, bne_iff_ne]

/-- Closed form of the year-range day count via leap-day counting, stated
additively. -/
theorem daysInRange_closed (n : Nat) :
    ∀ y, daysInRange y n + (y + 3) / 4 + (y + n + 99) / 100 + (y + 399) / 400 =
      365 * n + (y + n + 3) / 4 + (y + 99) / 100 + (y + n + 399) / 400 := by
  induction n with
  | zero =>
    intro y
    simp [daysInRange]
  | succ n ih =>
    intro y
    rw [daysInRange_succ]
    have h := ih (y + 1)
    unfold daysInYear
    by_cases hl : isLeapYear y = true
    · have hl2 := (isLeapYear_spec y).mp hl
      rw [if_pos hl]
      omega
    · have hl2 : ¬ ((y % 4 = 0 ∧ ¬ y % 100 = 0) ∨ y % 400 = 0) := fun hc =>
        hl ((isLeapYear_spec y).mpr hc)
      rw [if_neg hl]
      omega

/-- Below 2932897 days since the epoch (the day count of 10000-01-01) the
split year stays below 10000. -/
theorem splitYear_lt_10000 (d : Nat) (h : d < 2932897) : (splitYear d).1 < 10000 := by
  obtain ⟨hy, hsum, hlt⟩ := splitYear_inv d
  by_contra hge
  have hn : 8030 ≤ (splitYear d).1 - 1970 := by omega
  have hc := daysInRange_closed ((splitYear d).1 - 1970) 1970
  omega

set_option maxRecDepth 4000 in
/-- Splitting a day-of-year of a leap year yields a month in 1-12 and a day
inside that month, and the two recombine to the input. -/
theorem splitMonth_inv_leap :
    ∀ doy, doy < 366 →
      daysUpToMonth true (splitMonth true doy).1 + (splitMonth true doy).2 = doy ∧
      1 ≤ (splitMonth true doy).1 ∧ (splitMonth true doy).1 ≤ 12 ∧
      (splitMonth true doy).2 + 1 ≤ monthLength true (splitMonth true doy).1 := by
  decide

set_option maxRecDepth 4000 in
/-- Splitting a day-of-year of a common year yields a month in 1-12 and a day
inside that month, and the two recombine to the input. -/
theorem splitMonth_inv_common :
    ∀ doy, doy < 365 →
      daysUpToMonth false (splitMonth false doy).1 + (splitMonth false doy).2 = doy ∧
      1 ≤ (splitMonth false doy).1 ∧ (splitMonth false doy).1 ≤ 12 ∧
      (splitMonth false doy).2 + 1 ≤ monthLength false (splitMonth false doy).1 := by
  decide

/-- Uniform month-split correctness over the leap flag. -/
theorem splitMonth_inv (leap : Bool) (doy : Nat)
    (h : doy < if leap then 366 else 365) :
    daysUpToMonth leap (splitMonth leap doy).1 + (splitMonth leap doy).2 = doy ∧
      1 ≤ (splitMonth leap doy).1 ∧ (splitMonth leap doy).1 ≤ 12 ∧
      (splitMonth leap doy).2 + 1 ≤ monthLength leap (splitMonth leap doy).1 := by
  cases leap
  · exact splitMonth_inv_common doy (by simpa using h)
  · exact splitMonth_inv_leap doy (by simpa using h)

/-- Recombining the calendar decomposition of an instant gives the instant
back. -/
theorem utcToMs_msToUtc (m : Nat) : utcToMs (msToUtc m) = m := by
  obtain ⟨hy, hsum, hlt⟩ := splitYear_inv (m / 86400000)
  have hleap : (splitYear (m / 86400000)).2 <
      if isLeapYear (splitYear (m / 86400000)).1 then 366 else 365 := by
    have h2 := hlt
    unfold daysInYear at h2
    exact h2
  obtain ⟨hm1, hm2, hm3, hm4⟩ :=
    splitMonth_inv (isLeapYear (splitYear (m / 86400000)).1)
      ((splitYear (m / 86400000)).2) hleap
  simp only [msToUtc, utcToMs]
  omega

/-- The calendar decomposition of an instant before year 10000 has in-range
fields and a year below 10000. -/
theorem msToUtc_valid (m : Nat) (h : m < 253402300800000) :
    validUtc (msToUtc m) = true ∧ (msToUtc m).year < 10000 := by
  obtain ⟨hy, hsum, hlt⟩ := splitYear_inv (m / 86400000)
  have hdays : m / 86400000 < 2932897 := by omega
  have hylt := splitYear_lt_10000 (m / 86400000) hdays
  have hleap : (splitYear (m / 86400000)).2 <
      if isLeapYear (splitYear (m / 86400000)).1 then 366 else 365 := by
    have h2 := hlt
    unfold daysInYear at h2
    exact h2
  obtain ⟨hm1, hm2, hm3, hm4⟩ :=
    splitMonth_inv (isLeapYear (splitYear (m / 86400000)).1)
      ((splitYear (m / 86400000)).2) hleap
  constructor
  · simp only [validUtc, msToUtc, Bool.and_eq_true, decide_eq_true_eq]
    omega
  · simp only [msToUtc]
    exact hylt

/-- Digit characters of single digits parse back to their value. -/
theorem digitVal_ofNat : ∀ j, j < 10 → digitVal (Char.ofNat (48 + j)) = some j := by
  decide

/-- Every digit character parses back to the digit it renders. -/
theorem digitVal_digitChar (k : Nat) : digitVal (digitChar k) = some (k % 10) := by
  unfold digitChar
  exact digitVal_ofNat (k % 10) (Nat.mod_lt _ (by omega))

/-- The two-digit rendering of a number below 100 parses back to it. -/
theorem digits2_pad2 (n : Nat) (h : n < 100) :
    digits2 (digitChar (n / 10)) (digitChar n) = some n := by
  unfold digits2
  rw [digitVal_digitChar, digitVal_digitChar]
  show some (10 * (n / 10 % 10) + n % 10) = some n
  congr 1
  omega

/-- The three-digit rendering of a number below 1000 parses back to it. -/
theorem digits3_pad3 (n : Nat) (h : n < 1000) :
    digits3 (digitChar (n / 100)) (digitChar (n / 10)) (digitChar n) = some n := by
  unfold digits3
  rw [digitVal_digitChar, digitVal_digitChar, digitVal_digitChar]
  show some (100 * (n / 100 % 10) + 10 * (n / 10 % 10) + n % 10) = some n
  congr 1
  omega

/-- The four-digit rendering of a number below 10000 parses back to it. -/
theorem digits4_pad4 (n : Nat) (h : n < 10000) :
    digits4 (digitChar (n / 1000)) (digitChar (n / 100)) (digitChar (n / 10))
      (digitChar n) = some n := by
  unfold digits4
  rw [digitVal_digitChar, digitVal_digitChar, digitVal_digitChar, digitVal_digitChar]
  show some (1000 * (n / 1000 % 10) + 100 * (n / 100 % 10) + 10 * (n / 10 % 10)
    + n % 10) = some n
  congr 1
  omega

/-- Parsing the rendered ISO string of an in-range broken-down instant
recovers its fields exactly. -/
theorem parseIso_renderIso (t : UtcDateTime) (hy : t.year < 10000)
    (hmo : t.month < 100) (hd : t.day < 100) (hh : t.hour < 100)
    (hmi : t.minute < 100) (hs : t.second < 100) (hms : t.millisecond < 1000) :
    parseIso (renderIso t) = some t := by
  unfold renderIso pad4 pad2 pad3
  simp only [List.cons_append, List.nil_append]
  simp only [parseIso]
  rw [if_pos (by simp)]
  rw [digits4_pad4 t.year hy, digits2_pad2 t.month hmo, digits2_pad2 t.day hd,
    digits2_pad2 t.hour hh, digits2_pad2 t.minute hmi, digits2_pad2 t.second hs,
    digits3_pad3 t.millisecond hms]

/-- The ISO timestamp of any instant before year 10000 parses back to exactly
that instant. -/
theorem dateFromString_toISOString (m : Nat) (h : m < 253402300800000) :
    dateFromString (toISOString m) = some m := by
  obtain ⟨hvalid, hylt⟩ := msToUtc_valid m h
  have hv := hvalid
  simp only [validUtc, Bool.and_eq_true, decide_eq_true_eq] at hv
  obtain ⟨⟨⟨⟨⟨⟨⟨⟨hy1970, hmo1⟩, hmo12⟩, hd1⟩, hdlen⟩, hh23⟩, hmi59⟩, hs59⟩, hms999⟩ := hv
  have hml : monthLength (isLeapYear (msToUtc m).year) (msToUtc m).month ≤ 31 := by
    unfold monthLength monthLengths
    rcases (msToUtc m).month with _ | _ | _ | _ | _ | _ | _ | _ | _ | _ | _ | _ | _ | k <;>
      cases isLeapYear (msToUtc m).year <;> simp [List.getD]
  have hparse := parseIso_renderIso (msToUtc m) hylt (by omega) (by omega)
    (by omega) (by omega) (by omega) (by omega)
  unfold dateFromString toISOString
  show (match parseIso (renderIso (msToUtc m)) with
    | some t => if validUtc t = true then some (utcToMs t) else none
    | none => none) = some m
  rw [hparse]
  simp only [hvalid, if_true]
  rw [utcToMs_msToUtc]

/-- Claim C10: a GET request to /health in the shipped app yields HTTP 200
with a JSON body of exactly the two fields `status` and `timestamp`, where
`status` is "ok" and `timestamp` is an ISO-8601 string that round-trips
through Date parsing and re-serialisation to the identical string. -/
theorem health_endpoint_ok (now : Nat) (h : now < 253402300800000) :
    ∃ r, appHandle "GET" "/health" now = some r ∧
      r.status = 200 ∧
      r.contentType = "application/json" ∧
      r.body.map Prod.fst = ["status", "timestamp"] ∧
      r.body.lookup "status" = some "ok" ∧
      ∃ ts, r.body.lookup "timestamp" = some ts ∧
        ∃ ms, dateFromString ts = some ms ∧ toISOString ms = ts := by
  refine ⟨healthHandler now, ?_, rfl, rfl, rfl, rfl, toISOString now, ?_, now,
    dateFromString_toISOString now h, rfl⟩
  · unfold appHandle
    rw [if_pos ⟨rfl, rfl⟩]
  · rfl

/-- Witness for claim C10: the endpoint theorem applied at the concrete
instant 2025-10-12T00:00:00.123Z. -/
theorem health_endpoint_witness :
    1760227200123 < 253402300800000 ∧
      ∃ r, appHandle "GET" "/health" 1760227200123 = some r ∧
        r.status = 200 ∧
        r.contentType = "application/json" ∧
        r.body.map Prod.fst = ["status", "timestamp"] ∧
        r.body.lookup "status" = some "ok" ∧
        ∃ ts, r.body.lookup "timestamp" = some ts ∧
          ∃ ms, dateFromString ts = some ms ∧ toISOString ms = ts :=
  ⟨by omega, health_endpoint_ok 1760227200123 (by omega)⟩

end Scenariod
